import Mathlib

/-!
Verification of the airline chatbot message-interpretation pipeline
(`app/main.py`): text normalization, intent dispatch, airline alias
resolution, power-bank capacity parsing and classification, airport
reference lookups, and the flight-status gateway error mapping.

Modelling conventions (shallow embedding of the Python source):
* Strings are Lean `String`s; character-level operations (`str.lower`,
  `str.upper`, `str.strip`, `\s`, `\w`, `[a-zA-Z]`) are modelled on the
  ASCII fragment, which is the fragment the trigger phrases, alias
  tables and regex patterns of the source exercise.
* Python floats are modelled as exact rationals (`ℚ`); the numeric
  values reached by the claims (multiples of 1/10 at small magnitude)
  are exact in both systems.
* `pandas` reference data (`airports.dat`, loaded at startup) is a
  parameter `table : List AirportRecord`; `fillna("")` is modelled by
  storing missing city/name as `""`, `dropna` on the IATA column by
  `Option`.
* The outbound HTTP call of the flight branch is a parameter
  `api : String → String → HttpResult`; `HttpResult.exn` models any
  exception raised inside the `try` block (network failure, timeout,
  malformed JSON), `HttpResult.resp` a delivered HTTP response.
* Fallible evaluation is `Except Unit`: `pandas.Series.str.contains`
  compiles its argument as a regular expression (`regex=True` is the
  default), so a pattern containing a regex metacharacter can raise
  `re.error`; the model maps every pattern containing a metacharacter
  to `.error ()` (a conservative boundary: some metacharacter patterns
  are valid regexes; no theorem below touches that region except to
  exhibit the pattern `"("`, which genuinely fails to compile).
-/

namespace AirlineBot

/-! ## Character classes (ASCII fragment of Python `str` / `re`) -/

/-- `[a-zA-Z]`, the character class of the token regex in `detect_iata_tokens`. -/
def isAsciiAlpha (c : Char) : Bool :=
  (65 ≤ c.toNat && c.toNat ≤ 90) || (97 ≤ c.toNat && c.toNat ≤ 122)

/-- `\d` of Python `re` (ASCII digits). -/
def isDigitCh (c : Char) : Bool :=
  48 ≤ c.toNat && c.toNat ≤ 57

/-- `\w` of Python `re` (ASCII fragment: letters, digits, underscore). -/
def isWordCh (c : Char) : Bool :=
  isAsciiAlpha c || isDigitCh c || c.toNat == 95

/-- `\s` of Python `re` / `str.strip` (ASCII fragment: space, TAB, LF, VT, FF, CR). -/
def pyIsSpaceCh (c : Char) : Bool :=
  c.toNat == 32 || c.toNat == 9 || c.toNat == 10 || c.toNat == 11 ||
  c.toNat == 12 || c.toNat == 13

/-- `str.lower` on one character (ASCII fragment). -/
def lowChar (c : Char) : Char :=
  if 65 ≤ c.toNat && c.toNat ≤ 90 then Char.ofNat (c.toNat + 32) else c

/-- `str.upper` on one character (ASCII fragment). -/
def upChar (c : Char) : Char :=
  if 97 ≤ c.toNat && c.toNat ≤ 122 then Char.ofNat (c.toNat - 32) else c

/-- Characters that are special in Python regular expressions. -/
def regexMetaCh (c : Char) : Bool :=
  c == '.' || c == '^' || c == '$' || c == '*' || c == '+' || c == '?' ||
  c == '\x7b' || c == '\x7d' || c == '[' || c == ']' || c == '\\' ||
  c == '|' || c == '(' || c == ')'

/-! ## List-level string helpers -/

/-- `str.strip()` (ASCII whitespace fragment). -/
def stripL (l : List Char) : List Char :=
  ((l.dropWhile pyIsSpaceCh).reverse.dropWhile pyIsSpaceCh).reverse

/-- `re.sub(r"\s+", " ", ·)`: each maximal whitespace run becomes one space.
The flag records whether the previous character was whitespace. -/
def collapseGo : Bool → List Char → List Char
  | _, [] => []
  | prevSp, c :: rest =>
    if pyIsSpaceCh c then
      if prevSp then collapseGo true rest else ' ' :: collapseGo true rest
    else c :: collapseGo false rest

/-- Contiguous-sublist test: Python `pat in hay` for strings. -/
def hasSubL : List Char → List Char → Bool
  | [], pat => pat.isEmpty
  | c :: t, pat => pat.isPrefixOf (c :: t) || hasSubL t pat

/-! ## String-level helpers (the names mirror the Python source) -/

/-- `str.lower` (ASCII fragment). -/
def pyLowerS (s : String) : String := String.mk (s.data.map lowChar)

/-- `str.upper` (ASCII fragment). -/
def pyUpperS (s : String) : String := String.mk (s.data.map upChar)

/-- `str.strip` (ASCII whitespace fragment). -/
def pyStrip (s : String) : String := String.mk (stripL s.data)

/-- Python `pat in hay` substring test. -/
def hasSubS (hay pat : String) : Bool := hasSubL hay.data pat.data

/-- Python `hay.startswith(pat)`. -/
def startsWithS (hay pat : String) : Bool := pat.data.isPrefixOf hay.data

/-- `normalize` of the source: `re.sub(r"\s+", " ", s.strip().lower())`. -/
def normalize (s : String) : String :=
  String.mk (collapseGo false ((stripL s.data).map lowChar))

/-! ## Entity extractor: `re.findall(r"\b[a-zA-Z]{3}\b", user_msg)` -/

/-- Word boundary after a match: end of input or a non-word character. -/
def boundaryOk : List Char → Bool
  | [] => true
  | c :: _ => !isWordCh c

/-- Scanner for `re.findall(r"\b[a-zA-Z]{3}\b", ·)`.  `prevW` records
whether the character immediately before the scan position is a word
character (false at the start of the input); a match needs a boundary on
both sides, and scanning resumes after the end of a match. -/
def tokens3Go (prevW : Bool) : List Char → List (List Char)
  | [] => []
  | c1 :: rest =>
    match rest with
    | c2 :: c3 :: rest2 =>
      if !prevW && isAsciiAlpha c1 && isAsciiAlpha c2 && isAsciiAlpha c3
          && boundaryOk rest2 then
        [c1, c2, c3] :: tokens3Go true rest2
      else
        tokens3Go (isWordCh c1) (c2 :: c3 :: rest2)
    | _ => []

/-! ## Airport reference data -/

/-- One row of the `airports.dat` reference table, restricted to the
columns the lookups touch.  `fillna("")` lets missing city/name be `""`;
the IATA column is `Option` (`dropna`; a pandas `NaN` never equals a
code, and renders as `"nan"` in an f-string). -/
structure AirportRecord where
  name : String
  city : String
  country : String
  iata : Option String
  icao : String
deriving DecidableEq

/-- `iata_set = set(airports["IATA"].dropna().astype(str))`. -/
def iataSet (table : List AirportRecord) : List String :=
  table.filterMap (fun r => r.iata)

/-- Rendering of an optional pandas cell inside an f-string
(`NaN` prints as `nan`). -/
def cellStr (o : Option String) : String := o.getD "nan"

/-- `detect_iata_tokens` of the source: whole-word 3-letter alphabetic
tokens whose upper-cased form is in the IATA code set; if none hit and
the whole stripped message is exactly 3 characters, that string itself
is tested against the set. -/
def detect_iata_tokens (table : List AirportRecord) (user_msg : String) :
    List String :=
  let toks := (tokens3Go false user_msg.data).map String.mk
  let hits := toks.filterMap (fun t =>
    let u := pyUpperS t
    if (iataSet table).contains u then some u else none)
  if hits.isEmpty && (stripL user_msg.data).length == 3 then
    let t := pyUpperS (String.mk (stripL user_msg.data))
    if (iataSet table).contains t then [t] else hits
  else hits

/-! ## FAQ summaries (sync copies of official sources) -/

def tsaUrl : String :=
  "https://www.tsa.gov/travel/security-screening/whatcanibring/items/travel-size-toiletries"

def tsaSummary : String :=
  "TSA liquids rule (3-1-1): containers ≤ 3.4 oz / 100 mL; all containers fit in one quart-size transparent bag; one bag per passenger; place in bin for screening. Larger volumes → checked bag."

def faaUrl : String :=
  "https://www.faa.gov/hazmat/packsafe/lithium-batteries"

def faaSummary : String :=
  "Power banks (lithium batteries): carry-on only (no checked). ≤100 Wh allowed without airline approval; 100–160 Wh requires airline approval; protect terminals from short circuit."

/-! ## Airline baggage links -/

/-- `AIRLINE_LINKS`, in dict insertion order (iteration order matters for
the first-match loop). -/
def AIRLINE_LINKS : List (String × String) := [
  ("american", "https://www.aa.com/i18n/travel-info/baggage/baggage.jsp"),
  ("aa",       "https://www.aa.com/i18n/travel-info/baggage/baggage.jsp"),
  ("delta",    "https://www.delta.com/traveling-with-us/baggage"),
  ("dl",       "https://www.delta.com/traveling-with-us/baggage"),
  ("united",   "https://www.united.com/en/us/fly/travel/baggage.html"),
  ("ua",       "https://www.united.com/en/us/fly/travel/baggage.html"),
  ("southwest", "https://www.southwest.com/help/baggage"),
  ("wn",       "https://www.southwest.com/help/baggage"),
  ("alaska",   "https://www.alaskaair.com/travel-info/baggage/overview"),
  ("as",       "https://www.alaskaair.com/travel-info/baggage/overview"),
  ("jetblue",  "https://www.jetblue.com/help/baggage"),
  ("b6",       "https://www.jetblue.com/help/baggage"),
  ("air canada", "https://www.aircanada.com/ca/en/aco/home/plan/baggage.html"),
  ("ac",         "https://www.aircanada.com/ca/en/aco/home/plan/baggage.html"),
  ("british airways", "https://www.britishairways.com/en-us/information/baggage-essentials"),
  ("ba",              "https://www.britishairways.com/en-us/information/baggage-essentials"),
  ("lufthansa", "https://www.lufthansa.com/us/en/baggage-overview"),
  ("lh",        "https://www.lufthansa.com/us/en/baggage-overview"),
  ("emirates",  "https://www.emirates.com/us/english/before-you-fly/baggage/"),
  ("ek",        "https://www.emirates.com/us/english/before-you-fly/baggage/"),
  ("qatar",     "https://www.qatarairways.com/en-us/baggage/allowance.html"),
  ("qr",        "https://www.qatarairways.com/en-us/baggage/allowance.html"),
  ("singapore", "https://www.singaporeair.com/en_UK/us/travel-info/baggage/"),
  ("sq",        "https://www.singaporeair.com/en_UK/us/travel-info/baggage/")]

/-- `ALIAS_TO_NAME`. -/
def ALIAS_TO_NAME : List (String × String) := [
  ("aa", "American Airlines"), ("dl", "Delta Air Lines"),
  ("ua", "United Airlines"), ("wn", "Southwest Airlines"),
  ("as", "Alaska Airlines"), ("b6", "JetBlue"),
  ("ac", "Air Canada"), ("ba", "British Airways"), ("lh", "Lufthansa"),
  ("ek", "Emirates"), ("qr", "Qatar Airways"), ("sq", "Singapore Airlines")]

/-- `str.title` (ASCII fragment): upper-case a letter that follows a
non-letter, lower-case a letter that follows a letter. -/
def titleGo (prevAlpha : Bool) : List Char → List Char
  | [] => []
  | c :: rest =>
    (if isAsciiAlpha c then (if prevAlpha then lowChar c else upChar c) else c)
      :: titleGo (isAsciiAlpha c) rest

/-- `str.title` (ASCII fragment). -/
def pyTitle (s : String) : String := String.mk (titleGo false s.data)

/-- `ALIAS_TO_NAME.get(key, key.title())`. -/
def aliasDisplay (key : String) : String :=
  ((ALIAS_TO_NAME.find? (fun p => p.1 == key)).map (fun p => p.2)).getD (pyTitle key)

/-- The loop over the remaining (single-word) aliases of
`get_airline_baggage_link`: first key that occurs as a substring of the
normalized text wins; the two multi-word keys are skipped. -/
def aliasLoop (t : String) : List (String × String) → Option String × Option String
  | [] => (none, none)
  | (key, url) :: rest =>
    if key == "air canada" || key == "british airways" then aliasLoop t rest
    else if hasSubS t key then (some (aliasDisplay key), some url)
    else aliasLoop t rest

/-- `get_airline_baggage_link` of the source: normalize, check the two
multi-word airlines first, then every other key by loose substring
containment; `(None, None)` when nothing matches. -/
def get_airline_baggage_link (text : String) : Option String × Option String :=
  let t := normalize text
  if hasSubS t "air canada" then
    (some (pyTitle "air canada"), some "https://www.aircanada.com/ca/en/aco/home/plan/baggage.html")
  else if hasSubS t "british airways" then
    (some (pyTitle "british airways"), some "https://www.britishairways.com/en-us/information/baggage-essentials")
  else aliasLoop t AIRLINE_LINKS

/-! ## Power bank calculator

The source searches `t = text.lower().replace(",", " ")` with the
patterns `(\d+(\.\d+)?)\s*wh\b`, `(\d+(\.\d+)?)\s*mah\b` and
`(\d+(\.\d+)?)\s*v\b` (`re.search`: earliest start position wins; at a
given start, the digit runs are greedy and the optional fraction group
is tried before being dropped — shrinking a greedy digit run can never
help here, since the character after a shortened run is a digit, which
neither `\.`, `\s` nor a unit letter matches). -/

/-- Numeric value of an ASCII digit run. -/
def digitsVal (l : List Char) : Nat :=
  l.foldl (fun a c => 10 * a + (c.toNat - 48)) 0

/-- `\s*UNIT\b` against the characters following the number. -/
def unitTail (unit : List Char) (cs : List Char) : Bool :=
  let afterSp := cs.dropWhile pyIsSpaceCh
  unit.isPrefixOf afterSp && boundaryOk (afterSp.drop unit.length)

/-- Match `(\d+(\.\d+)?)\s*UNIT\b` anchored at the start of `cs`,
returning the numeric group as an exact rational. -/
def numUnitHere (unit : List Char) (cs : List Char) : Option ℚ :=
  let ds := cs.takeWhile isDigitCh
  if ds.isEmpty then none
  else
    let rest1 := cs.drop ds.length
    let intVal : ℚ := (digitsVal ds : ℚ)
    let withFrac : Option ℚ :=
      match rest1 with
      | '.' :: r =>
        let fs := r.takeWhile isDigitCh
        if fs.isEmpty then none
        else if unitTail unit (r.drop fs.length) then
          some (intVal + (digitsVal fs : ℚ) / (10 : ℚ) ^ fs.length)
        else none
      | _ => none
    match withFrac with
    | some v => some v
    | none => if unitTail unit rest1 then some intVal else none

/-- `re.search(r"(\d+(\.\d+)?)\s*UNIT\b", ·)`: try each start position
left to right. -/
def searchNumUnit (unit : List Char) : List Char → Option ℚ
  | [] => none
  | c :: rest =>
    match numUnitHere unit (c :: rest) with
    | some v => some v
    | none => searchNumUnit unit rest

/-- `t = text.lower().replace(",", " ")` of `powerbank_wh_from_text`. -/
def pbText (text : String) : List Char :=
  (pyLowerS text).data.map (fun c => if c == ',' then ' ' else c)

/-- `powerbank_wh_from_text` of the source: an explicit Wh value is used
directly (second component `none`, the source returns `None` there);
otherwise an mAh value with an optional voltage defaulting to 3.7 gives
`Wh = (mAh/1000) * V`; otherwise no value. -/
def powerbank_wh_from_text (text : String) : Option (ℚ × Option ℚ) :=
  match searchNumUnit ['w', 'h'] (pbText text) with
  | some wh => some (wh, none)
  | none =>
    match searchNumUnit ['m', 'a', 'h'] (pbText text) with
    | some mah =>
      let v : ℚ := match searchNumUnit ['v'] (pbText text) with
        | some x => x
        | none => 37 / 10
      some ((mah / 1000) * v, some v)
    | none => none

/-- `classify_wh` of the source. -/
def classify_wh (wh : ℚ) : String :=
  if wh ≤ 100 then "Allowed in carry-on without airline approval (no checked baggage)."
  else if wh ≤ 160 then "Carry-on allowed with airline approval (no checked baggage)."
  else "Not allowed for passenger aircraft (exceeds 160 Wh)."

/-! ## Number formatting (f-strings of the power-bank answer)

The Python values involved are floats; the model carries exact
rationals, and the formatters below model CPython output on the decimal
fragment these values inhabit: `{wh:.1f}` rounds to one fractional digit
(ties to even), `{v}` prints the shortest decimal form with at least one
fractional digit. -/

/-- `{x:.1f}` for a nonnegative value: round-half-even at one decimal. -/
def format1f (q : ℚ) : String :=
  let x := q * 10
  let fl : Int := ⌊x⌋
  let fr : ℚ := x - (fl : ℚ)
  let n : Int :=
    if fr > 1 / 2 then fl + 1
    else if fr < 1 / 2 then fl
    else if fl % 2 = 0 then fl else fl + 1
  let m := n.toNat
  toString (m / 10) ++ "." ++ toString (m % 10)

/-- Pad a digit string with leading zeros to width `k`. -/
def padZeros (s : String) (k : Nat) : String :=
  String.mk (List.replicate (k - s.length) '0') ++ s

/-- `str(x)` for a nonnegative float whose exact value is a short decimal:
the shortest decimal expansion, with at least one fractional digit. -/
def decRepr (q : ℚ) : String :=
  match (List.range 31).find? (fun k => (q * (10 : ℚ) ^ k).den == 1) with
  | some k =>
    let n := (q * (10 : ℚ) ^ k).num.toNat
    if k == 0 then toString n ++ ".0"
    else toString (n / 10 ^ k) ++ "." ++ padZeros (toString (n % 10 ^ k)) k
  | none => toString q

/-! ## Chat handler -/

/-- The outbound response: an answer plus an optional source URL. -/
structure ChatResponse where
  answer : String
  source : Option String
deriving DecidableEq

/-- One element of the provider `data` array; absent keys are `none`
(the source substitutes its defaults via `.get`). -/
structure Flight where
  airlineName : Option String
  flightIata : Option String
  depIata : Option String
  arrIata : Option String
  flightStatus : Option String
deriving DecidableEq

/-- Outcome of the single outbound `httpx.get` of the flight branch.
`exn` models any exception raised in the `try` block (transport failure,
timeout, malformed JSON body); `resp` a delivered response with its
status code, body text and — when the body parses — the value of
`resp.json().get("data", [])`. -/
inductive HttpResult where
  | exn (e : String)
  | resp (status : Nat) (body : String) (data : List Flight)
deriving DecidableEq

/-- One entry of the `examples` list:
`f"{flight_no} ({airline}) {dep}→{arr} — {status}"`. -/
def describeFlight (f : Flight) : String :=
  f.flightIata.getD "N/A" ++ " (" ++ f.airlineName.getD "Unknown Airline" ++ ") " ++
  f.depIata.getD "???" ++ "→" ++ f.arrIata.getD "???" ++ " — " ++
  f.flightStatus.getD "scheduled"

/-- Response assembly of the live-flights branch, lines 198–217 of the
source: 200 with a non-empty list summarizes the first 5 entries, 200
with an empty list reports no flights, any other status reports the
status and body, and an exception reports a generic gateway error. -/
def flightRespond (res : HttpResult) (direction code : String) : ChatResponse :=
  match res with
  | .exn e => ⟨"AviationStack error: " ++ e, none⟩
  | .resp status body data =>
    if status == 200 then
      if data.isEmpty then
        ⟨"No " ++ direction ++ " found for " ++ code ++ " at this time.", none⟩
      else
        ⟨"Found " ++ toString data.length ++ " " ++ direction ++ " for " ++ code ++
          ". Examples: " ++ String.intercalate ", " ((data.take 5).map describeFlight),
          none⟩
    else ⟨"AviationStack error " ++ toString status ++ ": " ++ body, none⟩

/-- `"departures" if "from" in user_l else "arrivals"`. -/
def chatDirection (user_l : String) : String :=
  if hasSubS user_l "from" then "departures" else "arrivals"

/-- Trigger set of the TSA-liquids rule. -/
def liquidsTrigger (user_l : String) : Bool :=
  ["liquid", "toiletries", "3-1-1", "3 1 1", "100ml", "100 ml"].any
    (fun k => hasSubS user_l k)

/-- Trigger set of the power-bank rule. -/
def powerTrigger (user_l : String) : Bool :=
  ["power bank", "powerbank", "battery", "lithium", "mah", "wh"].any
    (fun k => hasSubS user_l k)

/-- Trigger set of the airline-baggage rule. -/
def baggageTrigger (user_l : String) : Bool :=
  ["baggage", "bags", "luggage", "checked bag", "carry-on", "carry on",
   "carryon", "bag fee", "allowance"].any (fun k => hasSubS user_l k)

/-- Trigger of the live-flights rule. -/
def flightsPre (user_l : String) : Bool :=
  startsWithS user_l "flights from" || startsWithS user_l "flights to"

/-- `" using {v} V,"` or empty. -/
def voltTxt (v : Option ℚ) : String :=
  match v with
  | none => ""
  | some x => " using " ++ decRepr x ++ " V,"

/-- The power-bank branch of `chat`, lines 166–177. -/
def powerbankRespond (user_l : String) : ChatResponse :=
  match powerbank_wh_from_text user_l with
  | some (wh, v) =>
    ⟨"Estimated capacity ≈ " ++ format1f wh ++ " Wh" ++ voltTxt v ++
      " which falls under: " ++ classify_wh wh, some faaUrl⟩
  | none => ⟨faaSummary, some faaUrl⟩

/-- The airline-baggage branch of `chat`, lines 180–184 (the source
branches on the link only; a present name with a missing link cannot
occur, and `str(None)` would print `None`). -/
def baggageRespond (user_l : String) : ChatResponse :=
  match get_airline_baggage_link user_l with
  | (name, some link) =>
    ⟨"Here’s the official baggage policy for " ++ name.getD "None" ++ ":", some link⟩
  | (_, none) =>
    ⟨"Tell me the airline (e.g., \x27United baggage\x27, \x27AA baggage allowance\x27).", none⟩

/-- `f"{row['IATA']} = {row['name']} in {row['city']}, {row['country']} (ICAO {row['ICAO']})."`. -/
def exactAnswer (row : AirportRecord) : ChatResponse :=
  ⟨cellStr row.iata ++ " = " ++ row.name ++ " in " ++ row.city ++ ", " ++
    row.country ++ " (ICAO " ++ row.icao ++ ").", none⟩

/-- `f"Airport in {row['city']}: {row['name']} (IATA {row['IATA']}, ICAO {row['ICAO']})."`. -/
def cityAnswer (row : AirportRecord) : ChatResponse :=
  ⟨"Airport in " ++ row.city ++ ": " ++ row.name ++ " (IATA " ++ cellStr row.iata ++
    ", ICAO " ++ row.icao ++ ").", none⟩

/-- `f"{row['name']} is in {row['city']}, {row['country']} (IATA {row['IATA']}, ICAO {row['ICAO']})."`. -/
def nameAnswer (row : AirportRecord) : ChatResponse :=
  ⟨row.name ++ " is in " ++ row.city ++ ", " ++ row.country ++ " (IATA " ++
    cellStr row.iata ++ ", ICAO " ++ row.icao ++ ").", none⟩

/-- The exact-code loop of lines 221–225: for each detected code, the
first table row with that IATA value; on to the next code otherwise. -/
def iataExactLoop (table : List AirportRecord) : List String → Option ChatResponse
  | [] => none
  | c :: rest =>
    match table.find? (fun r => r.iata == some c) with
    | some row => some (exactAnswer row)
    | none => iataExactLoop table rest

/-- The airport-lookup section of `chat`, lines 219–235: exact code
first, then `city_l.str.contains(user_l)`, then
`name_l.str.contains(user_l)`.  `str.contains` compiles its argument as
a regex (`regex=True` default), so a metacharacter pattern raises
`re.error` before any row is tested; a metacharacter-free pattern is a
plain substring search.  The precomputed `city_l`/`name_l` columns are
modelled by lowering at lookup time. -/
def airportSection (table : List AirportRecord) (user_msg user_l : String) :
    Except Unit (Option ChatResponse) :=
  match iataExactLoop table (detect_iata_tokens table user_msg) with
  | some resp => .ok (some resp)
  | none =>
    if user_l.data.any regexMetaCh then .error ()
    else
      match table.find? (fun r => hasSubS (pyLowerS r.city) user_l) with
      | some row => .ok (some (cityAnswer row))
      | none =>
        match table.find? (fun r => hasSubS (pyLowerS r.name) user_l) with
        | some row => .ok (some (nameAnswer row))
        | none => .ok none

/-- The fixed fallback capability list. -/
def fallbackResponse : ChatResponse :=
  ⟨"I can help with:\n• Live flights (departures & arrivals by IATA code)\n• Airline baggage links\n• TSA liquids & FAA power banks\n• Airport info by code/name/city", none⟩

/-- Airport lookup followed by the fallback, the tail of `chat`. -/
def airportOrFallback (table : List AirportRecord) (user_msg user_l : String) :
    Except Unit ChatResponse :=
  match airportSection table user_msg user_l with
  | .error e => .error e
  | .ok (some resp) => .ok resp
  | .ok none => .ok fallbackResponse

/-- `chat` of the source (`POST /chat`): the ordered trigger chain.  The
live-flights branch returns only when a code was detected; with no code
it falls through to the airport lookup, exactly as the `if codes:` of
the source does.  `.error ()` marks an uncaught `re.error` escaping the
handler (an HTTP 500, not a chat answer). -/
def chat (table : List AirportRecord) (api : String → String → HttpResult)
    (message : String) : Except Unit ChatResponse :=
  let user_msg := pyStrip message
  let user_l := normalize user_msg
  if liquidsTrigger user_l then .ok ⟨tsaSummary, some tsaUrl⟩
  else if powerTrigger user_l then .ok (powerbankRespond user_l)
  else if baggageTrigger user_l then .ok (baggageRespond user_l)
  else if flightsPre user_l then
    match detect_iata_tokens table user_msg with
    | code :: _ =>
      .ok (flightRespond (api (chatDirection user_l) code) (chatDirection user_l) code)
    | [] => airportOrFallback table user_msg user_l
  else airportOrFallback table user_msg user_l

/-! ## Intent tags -/

/-- The closed intent tag set of the pipeline. -/
inductive Intent where
  | liquids | powerBank | baggage | liveFlights | airportLookup | fallback
deriving DecidableEq

/-- The first rule whose trigger set matches, in the canonical order the
specification states (Liquids → PowerBank → Baggage → LiveFlights →
AirportLookup/Fallback); written from the specification text, to be
compared with the dispatch the code performs. -/
def specFirstIntent (user_l : String) : Intent :=
  if liquidsTrigger user_l then .liquids
  else if powerTrigger user_l then .powerBank
  else if baggageTrigger user_l then .baggage
  else if flightsPre user_l then .liveFlights
  else .airportLookup

/-- The domain handler that actually produces the response of `chat`:
the same branch structure as `chat`, returning the tag of the branch
whose answer is returned.  The live-flights tag is reached only when a
code was detected; with no code the message falls through to the airport
lookup and possibly to the fallback. -/
def chatIntent (table : List AirportRecord) (message : String) :
    Except Unit Intent :=
  let user_msg := pyStrip message
  let user_l := normalize user_msg
  if liquidsTrigger user_l then .ok .liquids
  else if powerTrigger user_l then .ok .powerBank
  else if baggageTrigger user_l then .ok .baggage
  else if flightsPre user_l then
    match detect_iata_tokens table user_msg with
    | _ :: _ => .ok .liveFlights
    | [] =>
      match airportSection table user_msg user_l with
      | .error e => .error e
      | .ok (some _) => .ok .airportLookup
      | .ok none => .ok .fallback
  else
    match airportSection table user_msg user_l with
    | .error e => .error e
    | .ok (some _) => .ok .airportLookup
    | .ok none => .ok .fallback

/-! ## Concrete fixtures used by closed counterexamples and witnesses -/

/-- A two-row reference table. -/
def table0 : List AirportRecord := [
  ⟨"Los Angeles International Airport", "Los Angeles", "United States", some "LAX", "KLAX"⟩,
  ⟨"John F Kennedy International Airport", "New York", "United States", some "JFK", "KJFK"⟩]

/-- A provider stub whose every call raises. -/
def apiDown : String → String → HttpResult := fun _ _ => .exn "boom"

/-! ## Branch lemmas for `chat` (shared by the claim theorems) -/

/-- A liquids trigger resolves `chat` to the TSA answer. -/
theorem chat_eq_liquids (table : List AirportRecord)
    (api : String → String → HttpResult) (msg : String)
    (h1 : liquidsTrigger (normalize (pyStrip msg)) = true) :
    chat table api msg = .ok ⟨tsaSummary, some tsaUrl⟩ := by
  simp only [chat, h1, if_true]

/-- With no liquids trigger, a power trigger resolves `chat` to the
power-bank branch. -/
theorem chat_eq_power (table : List AirportRecord)
    (api : String → String → HttpResult) (msg : String)
    (h1 : liquidsTrigger (normalize (pyStrip msg)) = false)
    (h2 : powerTrigger (normalize (pyStrip msg)) = true) :
    chat table api msg = .ok (powerbankRespond (normalize (pyStrip msg))) := by
  simp only [chat, h1, h2, if_true, Bool.false_eq_true, if_false]

/-- With no earlier trigger, a baggage trigger resolves `chat` to the
airline-baggage branch. -/
theorem chat_eq_baggage (table : List AirportRecord)
    (api : String → String → HttpResult) (msg : String)
    (h1 : liquidsTrigger (normalize (pyStrip msg)) = false)
    (h2 : powerTrigger (normalize (pyStrip msg)) = false)
    (h3 : baggageTrigger (normalize (pyStrip msg)) = true) :
    chat table api msg = .ok (baggageRespond (normalize (pyStrip msg))) := by
  simp only [chat, h1, h2, h3, if_true, Bool.false_eq_true, if_false]

/-- With no earlier trigger, a live-flights prefix and a detected code
resolve `chat` to one call of the gateway and its response assembly. -/
theorem chat_eq_flights (table : List AirportRecord)
    (api : String → String → HttpResult) (msg : String) (c : String)
    (cs : List String)
    (h1 : liquidsTrigger (normalize (pyStrip msg)) = false)
    (h2 : powerTrigger (normalize (pyStrip msg)) = false)
    (h3 : baggageTrigger (normalize (pyStrip msg)) = false)
    (h4 : flightsPre (normalize (pyStrip msg)) = true)
    (h5 : detect_iata_tokens table (pyStrip msg) = c :: cs) :
    chat table api msg =
      .ok (flightRespond (api (chatDirection (normalize (pyStrip msg))) c)
        (chatDirection (normalize (pyStrip msg))) c) := by
  simp only [chat, h1, h2, h3, h4, h5, if_true, Bool.false_eq_true, if_false]

/-- With no trigger at all — or a live-flights prefix without a detected
code — `chat` is the airport lookup followed by the fallback. -/
theorem chat_eq_airport (table : List AirportRecord)
    (api : String → String → HttpResult) (msg : String)
    (h1 : liquidsTrigger (normalize (pyStrip msg)) = false)
    (h2 : powerTrigger (normalize (pyStrip msg)) = false)
    (h3 : baggageTrigger (normalize (pyStrip msg)) = false)
    (h4 : flightsPre (normalize (pyStrip msg)) = false ∨
      detect_iata_tokens table (pyStrip msg) = []) :
    chat table api msg =
      airportOrFallback table (pyStrip msg) (normalize (pyStrip msg)) := by
  rcases h4 with h4 | h4
  · simp only [chat, h1, h2, h3, h4, Bool.false_eq_true, if_false]
  · simp only [chat, h1, h2, h3, h4, Bool.false_eq_true, if_false]
    split
    · rfl
    · rfl

/-! ## C1: intent dispatch order -/

/-- C1 (counterexample).  The message `"flights from zzzz"` matches the
LiveFlights trigger first in the canonical rule order, yet no flight
handler processes it: no IATA code is extracted, the handler falls
through to the airport lookup, and the response produced is the
fallback.  So the first matching rule does not always win, and later
handlers are consulted. -/
theorem C1_counterexample :
    specFirstIntent (normalize (pyStrip "flights from zzzz")) = Intent.liveFlights ∧
    chatIntent table0 "flights from zzzz" = .ok Intent.fallback ∧
    chat table0 apiDown "flights from zzzz" = .ok fallbackResponse := by
  refine ⟨by decide, rfl, rfl⟩

/-- C1 (amended).  The chat handler tests the rules in the fixed order
Liquids, PowerBank, Baggage, LiveFlights, and the matching rule's
handler alone produces the response — except the LiveFlights rule: when
its trigger matches but no IATA code is extracted from the message,
no flight handler runs and processing falls through to the airport
lookup and, if every lookup is empty, to the fallback. -/
theorem C1_dispatch (table : List AirportRecord)
    (api : String → String → HttpResult) (msg : String) :
    (liquidsTrigger (normalize (pyStrip msg)) = true →
      chat table api msg = .ok ⟨tsaSummary, some tsaUrl⟩) ∧
    (liquidsTrigger (normalize (pyStrip msg)) = false →
      powerTrigger (normalize (pyStrip msg)) = true →
      chat table api msg = .ok (powerbankRespond (normalize (pyStrip msg)))) ∧
    (liquidsTrigger (normalize (pyStrip msg)) = false →
      powerTrigger (normalize (pyStrip msg)) = false →
      baggageTrigger (normalize (pyStrip msg)) = true →
      chat table api msg = .ok (baggageRespond (normalize (pyStrip msg)))) ∧
    (∀ c cs, liquidsTrigger (normalize (pyStrip msg)) = false →
      powerTrigger (normalize (pyStrip msg)) = false →
      baggageTrigger (normalize (pyStrip msg)) = false →
      flightsPre (normalize (pyStrip msg)) = true →
      detect_iata_tokens table (pyStrip msg) = c :: cs →
      chat table api msg =
        .ok (flightRespond (api (chatDirection (normalize (pyStrip msg))) c)
          (chatDirection (normalize (pyStrip msg))) c)) ∧
    (liquidsTrigger (normalize (pyStrip msg)) = false →
      powerTrigger (normalize (pyStrip msg)) = false →
      baggageTrigger (normalize (pyStrip msg)) = false →
      (flightsPre (normalize (pyStrip msg)) = false ∨
        detect_iata_tokens table (pyStrip msg) = []) →
      chat table api msg =
        airportOrFallback table (pyStrip msg) (normalize (pyStrip msg))) := by
  exact ⟨chat_eq_liquids table api msg, chat_eq_power table api msg,
    chat_eq_baggage table api msg,
    fun c cs => chat_eq_flights table api msg c cs,
    chat_eq_airport table api msg⟩

/-- C1 (witness for the amended dispatch): the fall-through case at the
concrete message `"flights from zzzz"`. -/
theorem C1_dispatch_witness :
    chat table0 apiDown "flights from zzzz" =
      airportOrFallback table0 (pyStrip "flights from zzzz")
        (normalize (pyStrip "flights from zzzz")) :=
  (C1_dispatch table0 apiDown "flights from zzzz").2.2.2.2
    (by decide) (by decide) (by decide) (Or.inr (by decide))

/-! ## C2: no fatal failure -/

/-- C2.  The claim fails on the code: the normalized message is handed
to `pandas.Series.str.contains`, whose default is `regex=True`, so the
message `"("` — which triggers no earlier rule and reaches the city
lookup — is compiled as a regular expression and raises `re.error`,
aborting request handling (an HTTP 500) instead of producing an answer.
This holds for every reference table and every provider stub. -/
theorem C2_regex_crash (table : List AirportRecord)
    (api : String → String → HttpResult) :
    chat table api "(" = .error () := by
  rfl

/-! ## C3: power-bank calculator -/

/-- The claim example `"is 20000mAh allowed"`: no Wh value, an mAh value
of 20000, no voltage, hence `(20000/1000) × 3.7 = 74` exactly. -/
theorem pb_example_eval :
    powerbank_wh_from_text "is 20000mAh allowed" = some (74, some (37 / 10)) := by
  have h1 : searchNumUnit ['w', 'h'] (pbText "is 20000mAh allowed") = none := by decide
  have h2 : searchNumUnit ['m', 'a', 'h'] (pbText "is 20000mAh allowed") =
      some 20000 := by decide
  have h3 : searchNumUnit ['v'] (pbText "is 20000mAh allowed") = none := by decide
  simp only [powerbank_wh_from_text, h1, h2, h3]
  norm_num

/-- C3.  Parse order of the power-bank calculator: an explicit Wh value
is used directly; otherwise an mAh value with an optional voltage
(default 3.7 V) gives `Wh = (mAh/1000) × V`; with neither, the chat
handler answers with the generic FAA regulatory summary and its
citation.  A parsed value classifies as allowed without approval up to
100 Wh, allowed with airline approval up to 160 Wh, and not allowed
above; the message `"is 20000mAh allowed"` parses to exactly 74 Wh at
the default voltage and classifies as allowed without approval. -/
theorem C3_powerbank_calculator (table : List AirportRecord)
    (api : String → String → HttpResult) (msg t : String) (w m vv : ℚ) :
    (searchNumUnit ['w', 'h'] (pbText t) = some w →
      powerbank_wh_from_text t = some (w, none)) ∧
    (searchNumUnit ['w', 'h'] (pbText t) = none →
      searchNumUnit ['m', 'a', 'h'] (pbText t) = some m →
      searchNumUnit ['v'] (pbText t) = some vv →
      powerbank_wh_from_text t = some ((m / 1000) * vv, some vv)) ∧
    (searchNumUnit ['w', 'h'] (pbText t) = none →
      searchNumUnit ['m', 'a', 'h'] (pbText t) = some m →
      searchNumUnit ['v'] (pbText t) = none →
      powerbank_wh_from_text t = some ((m / 1000) * (37 / 10), some (37 / 10))) ∧
    (searchNumUnit ['w', 'h'] (pbText t) = none →
      searchNumUnit ['m', 'a', 'h'] (pbText t) = none →
      powerbank_wh_from_text t = none) ∧
    (liquidsTrigger (normalize (pyStrip msg)) = false →
      powerTrigger (normalize (pyStrip msg)) = true →
      powerbank_wh_from_text (normalize (pyStrip msg)) = none →
      chat table api msg = .ok ⟨faaSummary, some faaUrl⟩) ∧
    (w ≤ 100 →
      classify_wh w = "Allowed in carry-on without airline approval (no checked baggage).") ∧
    (100 < w → w ≤ 160 →
      classify_wh w = "Carry-on allowed with airline approval (no checked baggage).") ∧
    (160 < w →
      classify_wh w = "Not allowed for passenger aircraft (exceeds 160 Wh).") ∧
    (powerbank_wh_from_text "is 20000mAh allowed" = some (74, some (37 / 10)) ∧
      classify_wh 74 =
        "Allowed in carry-on without airline approval (no checked baggage).") := by
  refine ⟨fun h1 => ?_, fun h1 h2 h3 => ?_, fun h1 h2 h3 => ?_, fun h1 h2 => ?_,
    fun h1 h2 h3 => ?_, fun h1 => ?_, fun h1 h2 => ?_, fun h1 => ?_, ?_, ?_⟩
  · simp only [powerbank_wh_from_text, h1]
  · simp only [powerbank_wh_from_text, h1, h2, h3]
  · simp only [powerbank_wh_from_text, h1, h2, h3]
  · simp only [powerbank_wh_from_text, h1, h2]
  · simp only [chat, h1, h2, if_true, Bool.false_eq_true, if_false,
      powerbankRespond, h3]
  · simp only [classify_wh, if_pos h1]
  · simp only [classify_wh, if_neg (not_le.mpr h1), if_pos h2]
  · simp only [classify_wh,
      if_neg (not_le.mpr (lt_trans (show (100 : ℚ) < 160 by norm_num) h1)),
      if_neg (not_le.mpr h1)]
  · exact pb_example_eval
  · decide

/-- C3 (witness): the theorem applied at concrete inputs — an explicit
Wh message, the claim's mAh example, a message with no numeric value
(for which `chat` answers the generic FAA summary with its citation),
and the three classification bands. -/
theorem C3_powerbank_witness :
    powerbank_wh_from_text "500 wh battery" = some (500, none) ∧
    powerbank_wh_from_text "is 20000mAh allowed" =
      some (20000 / 1000 * (37 / 10), some (37 / 10)) ∧
    chat table0 apiDown "power bank rules" = .ok ⟨faaSummary, some faaUrl⟩ ∧
    classify_wh 74 = "Allowed in carry-on without airline approval (no checked baggage)." ∧
    classify_wh 120 = "Carry-on allowed with airline approval (no checked baggage)." ∧
    classify_wh 500 = "Not allowed for passenger aircraft (exceeds 160 Wh)." :=
  ⟨(C3_powerbank_calculator table0 apiDown "x" "500 wh battery" 500 0 0).1 (by decide),
   (C3_powerbank_calculator table0 apiDown "x" "is 20000mAh allowed" 0 20000 0).2.2.1
     (by decide) (by decide) (by decide),
   (C3_powerbank_calculator table0 apiDown "power bank rules" "x" 0 0 0).2.2.2.2.1
     (by decide) (by decide) (by decide),
   (C3_powerbank_calculator table0 apiDown "x" "x" 74 0 0).2.2.2.2.2.1 (by norm_num),
   (C3_powerbank_calculator table0 apiDown "x" "x" 120 0 0).2.2.2.2.2.2.1
     (by norm_num) (by norm_num),
   (C3_powerbank_calculator table0 apiDown "x" "x" 500 0 0).2.2.2.2.2.2.2.1 (by norm_num)⟩

/-! ## C4: "United baggage" -/

/-- C4 (counterexample).  For `"United baggage"` the resolver matches
the full-name alias `"united"`, which is absent from `ALIAS_TO_NAME`, so
the display name is the title-cased alias `"United"` — not the canonical
`"United Airlines"` the claim states (only the code alias `"ua"` maps to
that).  The URL part of the claim holds. -/
theorem C4_counterexample :
    get_airline_baggage_link "United baggage" =
      (some "United", some "https://www.united.com/en/us/fly/travel/baggage.html") ∧
    ("United" : String) ≠ "United Airlines" := by
  exact ⟨by decide, by decide⟩

/-- C4 (amended).  For the message `"United baggage"` the resolver
returns the display name `"United"` (the title-cased matched alias)
together with the configured United baggage-policy URL, and the chat
handler answers with that link; the code alias `"ua"` is the one that
resolves to the canonical name `"United Airlines"`. -/
theorem C4_united_baggage (table : List AirportRecord)
    (api : String → String → HttpResult) :
    chat table api "United baggage" =
      .ok ⟨"Here’s the official baggage policy for United:",
        some "https://www.united.com/en/us/fly/travel/baggage.html"⟩ ∧
    get_airline_baggage_link "ua baggage" =
      (some "United Airlines", some "https://www.united.com/en/us/fly/travel/baggage.html") := by
  exact ⟨rfl, by decide⟩

/-! ## C5: word-boundary anchoring of single-word aliases -/

/-- C5 (counterexample).  Single-word aliases are matched by plain
substring containment, not word-boundary-anchored: in the message
`"bags"` the alias `"ba"` occurs only inside the word `"bags"`, yet the
resolver resolves it to British Airways, and the chat handler answers
with the British Airways link instead of prompting for an airline. -/
theorem C5_counterexample :
    get_airline_baggage_link "bags" =
      (some "British Airways",
        some "https://www.britishairways.com/en-us/information/baggage-essentials") ∧
    chat table0 apiDown "bags" =
      .ok ⟨"Here’s the official baggage policy for British Airways:",
        some "https://www.britishairways.com/en-us/information/baggage-essentials"⟩ := by
  exact ⟨by decide, rfl⟩

/-- If no alias key occurs as a substring of the normalized text, the
single-word loop finds nothing. -/
theorem aliasLoop_none (t : String) (l : List (String × String))
    (h : ∀ k ∈ l.map Prod.fst, hasSubS t k = false) :
    aliasLoop t l = (none, none) := by
  induction l with
  | nil => rfl
  | cons p rest ih =>
    obtain ⟨k, url⟩ := p
    by_cases hk : (k == "air canada" || k == "british airways") = true
    · simp only [aliasLoop, hk, if_true]
      exact ih (fun k' hk' => h k' (List.mem_cons_of_mem _ hk'))
    · simp only [aliasLoop, hk, Bool.false_eq_true, if_false,
        h k (List.mem_cons_self _ _), ite_false]
      exact ih (fun k' hk' => h k' (List.mem_cons_of_mem _ hk'))

/-- C5 (amended).  Every alias — single-word ones included — matches as
an unanchored substring of the normalized message, so an alias occurring
only inside a longer word still resolves (`"ba"` inside `"bags"` yields
British Airways); when no alias key occurs as a substring at all, the
resolver reports no match and the chat handler prompts the user to name
an airline. -/
theorem C5_substring_matching (table : List AirportRecord)
    (api : String → String → HttpResult) (msg : String) :
    (get_airline_baggage_link "bags" =
      (some "British Airways",
        some "https://www.britishairways.com/en-us/information/baggage-essentials")) ∧
    (∀ t : String, (∀ k ∈ AIRLINE_LINKS.map Prod.fst, hasSubS (normalize t) k = false) →
      get_airline_baggage_link t = (none, none)) ∧
    (liquidsTrigger (normalize (pyStrip msg)) = false →
      powerTrigger (normalize (pyStrip msg)) = false →
      baggageTrigger (normalize (pyStrip msg)) = true →
      (∀ k ∈ AIRLINE_LINKS.map Prod.fst,
        hasSubS (normalize (normalize (pyStrip msg))) k = false) →
      chat table api msg =
        .ok ⟨"Tell me the airline (e.g., \x27United baggage\x27, \x27AA baggage allowance\x27).",
          none⟩) := by
  refine ⟨by decide, fun t h => ?_, fun h1 h2 h3 h4 => ?_⟩
  · have hac : hasSubS (normalize t) "air canada" = false :=
      h "air canada" (by decide)
    have hba : hasSubS (normalize t) "british airways" = false :=
      h "british airways" (by decide)
    simp only [get_airline_baggage_link, hac, hba, Bool.false_eq_true, if_false]
    exact aliasLoop_none _ _ h
  · have hlink : get_airline_baggage_link (normalize (pyStrip msg)) = (none, none) := by
      have hac : hasSubS (normalize (normalize (pyStrip msg))) "air canada" = false :=
        h4 "air canada" (by decide)
      have hba : hasSubS (normalize (normalize (pyStrip msg))) "british airways" = false :=
        h4 "british airways" (by decide)
      simp only [get_airline_baggage_link, hac, hba, Bool.false_eq_true, if_false]
      exact aliasLoop_none _ _ h4
    rw [chat_eq_baggage table api msg h1 h2 h3]
    unfold baggageRespond
    rw [hlink]

/-- C5 (witness for the amended claim): the no-match prompt at the
concrete message `"my luggage"` (baggage intent, no alias substring —
note that any message containing `"baggage"` or `"bags"` contains the
alias `"ba"`), and the `"bags"` resolution. -/
theorem C5_substring_witness :
    chat table0 apiDown "my luggage" =
      .ok ⟨"Tell me the airline (e.g., \x27United baggage\x27, \x27AA baggage allowance\x27).",
        none⟩ ∧
    get_airline_baggage_link "my luggage" = (none, none) :=
  ⟨(C5_substring_matching table0 apiDown "my luggage").2.2
      (by decide) (by decide) (by decide) (by decide),
   (C5_substring_matching table0 apiDown "x").2.1 "my luggage" (by decide)⟩

/-! ## C6: multi-word alias precedence -/

/-- C6.  Multi-word aliases are checked before every single-word alias:
whenever `"air canada"` occurs in the normalized text, the resolver
returns the Air Canada title-cased name and baggage URL — no shorter
alias can preempt it, because the multi-word check is the first test the
resolver performs. -/
theorem C6_multiword_precedence (text : String)
    (h : hasSubS (normalize text) "air canada" = true) :
    get_airline_baggage_link text =
      (some "Air Canada", some "https://www.aircanada.com/ca/en/aco/home/plan/baggage.html") := by
  simp only [get_airline_baggage_link, h, if_true]
  decide

/-- C6 (witness): a message containing `"air canada"` (and the
substring aliases `"ac"`, `"a"`, `"ba"`-free text around it). -/
theorem C6_multiword_witness :
    get_airline_baggage_link "Air Canada baggage rules" =
      (some "Air Canada", some "https://www.aircanada.com/ca/en/aco/home/plan/baggage.html") :=
  C6_multiword_precedence "Air Canada baggage rules" (by decide)

/-! ## C7: airport lookup order -/

/-- A code in the IATA set has a first matching row. -/
theorem find_row_of_mem_iataSet (table : List AirportRecord) (c : String)
    (h : c ∈ iataSet table) :
    ∃ row, table.find? (fun r => r.iata == some c) = some row := by
  induction table with
  | nil => simp [iataSet] at h
  | cons r rest ih =>
    by_cases hbeq : (r.iata == some c) = true
    · exact ⟨r, by simp [List.find?, hbeq]⟩
    · have hbf : (r.iata == some c) = false := by
        exact Bool.not_eq_true _ ▸ eq_false_of_ne_true hbeq
      have hne : r.iata ≠ some c := by
        intro he
        exact hbeq (by simp [he])
      have hr : c ∈ iataSet rest := by
        rcases hri : r.iata with _ | a
        · simpa [iataSet, hri] using h
        · have hne2 : a ≠ c := by
            intro he
            exact hne (by rw [hri, he])
          have h2 : c = a ∨ ∃ r2 ∈ rest, r2.iata = some c := by
            simpa [iataSet, hri] using h
          rcases h2 with h2 | h2
          · exact absurd h2.symm hne2
          · exact List.mem_filterMap.mpr h2
      obtain ⟨row, hrow⟩ := ih hr
      exact ⟨row, by simp [List.find?, hbf, hrow]⟩

/-- Codes collected by the token filter are members of the IATA set. -/
theorem mem_hits_iataSet (table : List AirportRecord) (toks : List String)
    (c : String)
    (h : c ∈ toks.filterMap (fun t =>
      if (iataSet table).contains (pyUpperS t) then some (pyUpperS t) else none)) :
    c ∈ iataSet table := by
  rcases List.mem_filterMap.mp h with ⟨t, _, ht⟩
  split at ht
  · cases ht
    exact List.mem_of_elem_eq_true (by assumption)
  · cases ht

/-- Every detected code is a member of the IATA set. -/
theorem detect_mem_iataSet (table : List AirportRecord) (um : String)
    (c : String) (h : c ∈ detect_iata_tokens table um) :
    c ∈ iataSet table := by
  simp only [detect_iata_tokens] at h
  split at h
  · split at h
    · have hc : c = pyUpperS (String.mk (stripL um.data)) := by simpa using h
      subst hc
      exact List.mem_of_elem_eq_true (by assumption)
    · exact mem_hits_iataSet table _ c h
  · exact mem_hits_iataSet table _ c h

/-- Membership in the IATA set is witnessed by a table row. -/
theorem row_of_mem_iataSet (table : List AirportRecord) (c : String)
    (h : c ∈ iataSet table) : ∃ r ∈ table, r.iata = some c :=
  List.mem_filterMap.mp h

/-- C7.  The airport lookup tries exactly three lookups in order and
returns the first non-empty result: exact match on a detected IATA code
(a detected code always has a row, since detection filters through the
set built from the table); only when no code was detected, substring
containment of the normalized message in the city field; only when that
is empty, containment in the name field.  The containment lookups are
regex-based in the source, so the containment reading applies to
metacharacter-free messages. -/
theorem C7_lookup_order (table : List AirportRecord) (um ul : String) :
    (∀ c cs, detect_iata_tokens table um = c :: cs →
      ∃ row, table.find? (fun r => r.iata == some c) = some row ∧
        airportSection table um ul = .ok (some (exactAnswer row))) ∧
    (detect_iata_tokens table um = [] →
      ul.data.any regexMetaCh = false →
      ∀ row, table.find? (fun r => hasSubS (pyLowerS r.city) ul) = some row →
        airportSection table um ul = .ok (some (cityAnswer row))) ∧
    (detect_iata_tokens table um = [] →
      ul.data.any regexMetaCh = false →
      table.find? (fun r => hasSubS (pyLowerS r.city) ul) = none →
      ∀ row, table.find? (fun r => hasSubS (pyLowerS r.name) ul) = some row →
        airportSection table um ul = .ok (some (nameAnswer row))) ∧
    (detect_iata_tokens table um = [] →
      ul.data.any regexMetaCh = false →
      table.find? (fun r => hasSubS (pyLowerS r.city) ul) = none →
      table.find? (fun r => hasSubS (pyLowerS r.name) ul) = none →
      airportSection table um ul = .ok none) := by
  refine ⟨fun c cs h => ?_, fun h hm row hrow => ?_, fun h hm hcity row hrow => ?_,
    fun h hm hcity hname => ?_⟩
  · have hmem : c ∈ iataSet table :=
      detect_mem_iataSet table um c (by rw [h]; exact List.mem_cons_self _ _)
    obtain ⟨row, hrow⟩ := find_row_of_mem_iataSet table c hmem
    refine ⟨row, hrow, ?_⟩
    simp only [airportSection, h, iataExactLoop, hrow]
  · simp only [airportSection, h, iataExactLoop, hm, Bool.false_eq_true, if_false, hrow]
  · simp only [airportSection, h, iataExactLoop, hm, Bool.false_eq_true, if_false,
      hcity, hrow]
  · simp only [airportSection, h, iataExactLoop, hm, Bool.false_eq_true, if_false,
      hcity, hname]

/-- C7 (witness): the exact-code lookup on `"LAX please"` and the city
lookup on `"new york"` over the two-row fixture table. -/
theorem C7_lookup_witness :
    (∃ row, table0.find? (fun r => r.iata == some "LAX") = some row ∧
      airportSection table0 "LAX please" "lax please" = .ok (some (exactAnswer row))) ∧
    airportSection table0 "new york" "new york" =
      .ok (some (cityAnswer
        ⟨"John F Kennedy International Airport", "New York", "United States",
          some "JFK", "KJFK"⟩)) :=
  ⟨(C7_lookup_order table0 "LAX please" "lax please").1 "LAX" [] (by decide),
   (C7_lookup_order table0 "new york" "new york").2.1 (by decide) (by decide)
     ⟨"John F Kennedy International Airport", "New York", "United States",
       some "JFK", "KJFK"⟩ (by decide)⟩

/-! ## C8: flight-status gateway outcome mapping -/

/-- The transport-error and HTTP-error answers differ at character 19
(`':'` against `' '`), whatever the status, body and exception text. -/
theorem http_msg_ne_transport_msg (s body e : String) :
    "AviationStack error " ++ s ++ ": " ++ body ≠ "AviationStack error: " ++ e := by
  intro h
  have h2 : (some ' ' : Option Char) = some ':' := by
    calc (some ' ' : Option Char)
        = (("AviationStack error " ++ s ++ ": " ++ body).data.drop 19).head? := rfl
      _ = (("AviationStack error: " ++ e).data.drop 19).head? := by rw [h]
      _ = some ':' := rfl
  exact absurd h2 (by decide)

/-- The no-flights answer starts with `'N'`, the error answers with `'A'`. -/
theorem noflights_msg_ne_transport_msg (d c e : String) :
    "No " ++ d ++ " found for " ++ c ++ " at this time." ≠
      "AviationStack error: " ++ e := by
  intro h
  have h2 : (some 'N' : Option Char) = some 'A' := by
    calc (some 'N' : Option Char)
        = ("No " ++ d ++ " found for " ++ c ++ " at this time.").data.head? := rfl
      _ = ("AviationStack error: " ++ e).data.head? := by rw [h]
      _ = some 'A' := rfl
  exact absurd h2 (by decide)

/-- The no-flights answer also differs from every HTTP-error answer. -/
theorem noflights_msg_ne_http_msg (d c s body : String) :
    "No " ++ d ++ " found for " ++ c ++ " at this time." ≠
      "AviationStack error " ++ s ++ ": " ++ body := by
  intro h
  have h2 : (some 'N' : Option Char) = some 'A' := by
    calc (some 'N' : Option Char)
        = ("No " ++ d ++ " found for " ++ c ++ " at this time.").data.head? := rfl
      _ = ("AviationStack error " ++ s ++ ": " ++ body).data.head? := by rw [h]
      _ = some 'A' := rfl
  exact absurd h2 (by decide)

/-- C8.  The gateway outcomes are mapped to distinct, non-fatal
answers: an exception becomes the generic inline gateway-error message
(and `chat` still returns a well-formed response); a non-200 status
becomes a message carrying the status and body, distinct from every
transport-failure message; a 200 with an empty list becomes the
no-flights message, distinct from both error shapes; and a 200 with
results summarizes at most the first 5 entries of the list, however
long it is. -/
theorem C8_gateway_outcomes (d c e body : String) (st : Nat)
    (data : List Flight) :
    (flightRespond (.exn e) d c = ⟨"AviationStack error: " ++ e, none⟩) ∧
    (∀ table api msg cs,
      liquidsTrigger (normalize (pyStrip msg)) = false →
      powerTrigger (normalize (pyStrip msg)) = false →
      baggageTrigger (normalize (pyStrip msg)) = false →
      flightsPre (normalize (pyStrip msg)) = true →
      detect_iata_tokens table (pyStrip msg) = c :: cs →
      chat table api msg =
        .ok (flightRespond (api (chatDirection (normalize (pyStrip msg))) c)
          (chatDirection (normalize (pyStrip msg))) c)) ∧
    (st ≠ 200 →
      flightRespond (.resp st body data) d c =
        ⟨"AviationStack error " ++ toString st ++ ": " ++ body, none⟩) ∧
    ("AviationStack error " ++ toString st ++ ": " ++ body ≠
      "AviationStack error: " ++ e) ∧
    (flightRespond (.resp 200 body []) d c =
      ⟨"No " ++ d ++ " found for " ++ c ++ " at this time.", none⟩) ∧
    ("No " ++ d ++ " found for " ++ c ++ " at this time." ≠
      "AviationStack error: " ++ e) ∧
    ("No " ++ d ++ " found for " ++ c ++ " at this time." ≠
      "AviationStack error " ++ toString st ++ ": " ++ body) ∧
    (data ≠ [] →
      flightRespond (.resp 200 body data) d c =
        ⟨"Found " ++ toString data.length ++ " " ++ d ++ " for " ++ c ++
          ". Examples: " ++
          String.intercalate ", " ((data.take 5).map describeFlight), none⟩ ∧
      (data.take 5).length ≤ 5 ∧ data.take 5 <+: data) := by
  refine ⟨rfl, fun table api msg cs h1 h2 h3 h4 h5 =>
      chat_eq_flights table api msg c cs h1 h2 h3 h4 h5,
    fun hst => ?_, http_msg_ne_transport_msg (toString st) body e,
    rfl, noflights_msg_ne_transport_msg d c e,
    noflights_msg_ne_http_msg d c (toString st) body, fun hdata => ?_⟩
  · have hb : (st == 200) = false := beq_eq_false_iff_ne.mpr hst
    simp only [flightRespond, hb, Bool.false_eq_true, if_false]
  · have hb : data.isEmpty = false := by
      cases data with
      | nil => exact absurd rfl hdata
      | cons f fs => rfl
    refine ⟨?_, ?_, List.take_prefix 5 data⟩
    · simp only [flightRespond, hb, Bool.false_eq_true, if_false, if_true,
        beq_self_eq_true]
    · rw [List.length_take]
      exact min_le_left _ _

/-- C8 (witness): the four outcome kinds at concrete inputs — provider
exception, HTTP 503, 200 with an empty list, and 200 with six results
(of which only five are summarized) — plus the `chat`-level non-fatal
handling with a failing provider. -/
theorem C8_gateway_witness :
    flightRespond (.exn "boom") "departures" "LAX" =
      ⟨"AviationStack error: boom", none⟩ ∧
    chat table0 apiDown "flights from lax" =
      .ok ⟨"AviationStack error: boom", none⟩ ∧
    flightRespond (.resp 503 "oops" []) "departures" "LAX" =
      ⟨"AviationStack error 503: oops", none⟩ ∧
    ("AviationStack error 503: oops" : String) ≠ "AviationStack error: boom" ∧
    flightRespond (.resp 200 "" []) "departures" "LAX" =
      ⟨"No departures found for LAX at this time.", none⟩ ∧
    ("No departures found for LAX at this time." : String) ≠
      "AviationStack error: boom" ∧
    (flightRespond (.resp 200 ""
        (List.replicate 6 ⟨some "Delta Air Lines", some "DL1", some "LAX",
          some "JFK", some "active"⟩)) "departures" "LAX" =
      ⟨"Found 6 departures for LAX. Examples: " ++ String.intercalate ", "
        ((( List.replicate 6 (⟨some "Delta Air Lines", some "DL1", some "LAX",
          some "JFK", some "active"⟩ : Flight)).take 5).map describeFlight),
        none⟩ ∧
      ((List.replicate 6 (⟨some "Delta Air Lines", some "DL1", some "LAX",
        some "JFK", some "active"⟩ : Flight)).take 5).length ≤ 5 ∧
      (List.replicate 6 (⟨some "Delta Air Lines", some "DL1", some "LAX",
        some "JFK", some "active"⟩ : Flight)).take 5 <+:
        List.replicate 6 (⟨some "Delta Air Lines", some "DL1", some "LAX",
          some "JFK", some "active"⟩ : Flight)) :=
  ⟨(C8_gateway_outcomes "departures" "LAX" "boom" "" 200 []).1,
   (C8_gateway_outcomes "departures" "LAX" "boom" "" 200 []).2.1 table0 apiDown
     "flights from lax" [] (by decide) (by decide) (by decide) (by decide) (by decide),
   (C8_gateway_outcomes "departures" "LAX" "boom" "oops" 503 []).2.2.1 (by decide),
   (C8_gateway_outcomes "departures" "LAX" "boom" "oops" 503 []).2.2.2.1,
   (C8_gateway_outcomes "departures" "LAX" "boom" "" 200 []).2.2.2.2.1,
   (C8_gateway_outcomes "departures" "LAX" "boom" "" 200 []).2.2.2.2.2.1,
   (C8_gateway_outcomes "departures" "LAX" "boom" "" 200
       (List.replicate 6 ⟨some "Delta Air Lines", some "DL1", some "LAX",
         some "JFK", some "active"⟩)).2.2.2.2.2.2.2 (by decide)⟩

/-! ## C10: direction of a live-flights query -/

/-- C10.  For a live-flights message (normalized text starting with
`"flights from"` or `"flights to"`) with a detected code, the queried
direction is `"departures"` exactly when the substring `"from"` occurs
anywhere in the normalized message and `"arrivals"` otherwise — so a
message beginning `"flights to ..."` that also contains `"from"` later
is queried as departures. -/
theorem C10_flight_direction (table : List AirportRecord)
    (api : String → String → HttpResult) (msg : String) (c : String)
    (cs : List String)
    (h1 : liquidsTrigger (normalize (pyStrip msg)) = false)
    (h2 : powerTrigger (normalize (pyStrip msg)) = false)
    (h3 : baggageTrigger (normalize (pyStrip msg)) = false)
    (h4 : flightsPre (normalize (pyStrip msg)) = true)
    (h5 : detect_iata_tokens table (pyStrip msg) = c :: cs) :
    (hasSubS (normalize (pyStrip msg)) "from" = true →
      chat table api msg = .ok (flightRespond (api "departures" c) "departures" c)) ∧
    (hasSubS (normalize (pyStrip msg)) "from" = false →
      chat table api msg = .ok (flightRespond (api "arrivals" c) "arrivals" c)) := by
  constructor
  · intro hf
    rw [chat_eq_flights table api msg c cs h1 h2 h3 h4 h5]
    simp only [chatDirection, hf, if_true]
  · intro hf
    rw [chat_eq_flights table api msg c cs h1 h2 h3 h4 h5]
    simp only [chatDirection, hf, Bool.false_eq_true, if_false]

/-- C10 (witness): the message `"flights to jfk from lax"` begins with
`"flights to"` but contains `"from"`, so it is queried as departures
(for JFK, the first detected code). -/
theorem C10_flight_direction_witness :
    chat table0 apiDown "flights to jfk from lax" =
      .ok (flightRespond (apiDown "departures" "JFK") "departures" "JFK") :=
  (C10_flight_direction table0 apiDown "flights to jfk from lax" "JFK" ["LAX"]
    (by decide) (by decide) (by decide) (by decide) (by decide)).1 (by decide)

/-! ## C9: extractor invariants — character-level lemmas -/

/-- `Char.ofNat` at a valid scalar value keeps its code point. -/
theorem toNat_ofNat_valid (n : Nat) (h : n < 55296) :
    (Char.ofNat n).toNat = n := by
  unfold Char.ofNat
  rw [dif_pos (Or.inl h)]
  rfl

/-- Characters with equal code points are equal. -/
theorem char_eq_of_toNat_eq {a b : Char} (h : a.toNat = b.toNat) : a = b :=
  Char.ext (UInt32.ext h)

/-- Code point of `upChar`. -/
theorem upChar_toNat (c : Char) :
    (upChar c).toNat =
      if (97 ≤ c.toNat && c.toNat ≤ 122) = true then c.toNat - 32 else c.toNat := by
  unfold upChar
  split
  · rename_i hc
    have h2 : c.toNat ≤ 122 := of_decide_eq_true ((Bool.and_eq_true _ _).mp hc).2
    exact toNat_ofNat_valid _ (by omega)
  · rfl

/-- Upper-casing is idempotent. -/
theorem upChar_upChar (c : Char) : upChar (upChar c) = upChar c := by
  apply char_eq_of_toNat_eq
  have h1 := upChar_toNat c
  have h2 := upChar_toNat (upChar c)
  by_cases hc : (97 ≤ c.toNat && c.toNat ≤ 122) = true
  · rw [if_pos hc] at h1
    have hlo : 97 ≤ c.toNat := of_decide_eq_true ((Bool.and_eq_true _ _).mp hc).1
    have hhi : c.toNat ≤ 122 := of_decide_eq_true ((Bool.and_eq_true _ _).mp hc).2
    have hne : (97 ≤ (upChar c).toNat && (upChar c).toNat ≤ 122) = false := by
      rw [h1]
      have : ¬ 97 ≤ c.toNat - 32 := by omega
      simp [this]
    rw [hne, if_neg (by simp)] at h2
    exact h2
  · rw [if_neg hc] at h1
    rw [h1] at h2
    rw [h2, h1]
    rw [if_neg hc]

/-- `isAsciiAlpha` is invariant under upper-casing. -/
theorem isAsciiAlpha_upChar (c : Char) : isAsciiAlpha (upChar c) = isAsciiAlpha c := by
  have ht := upChar_toNat c
  rw [Bool.eq_iff_iff]
  simp only [isAsciiAlpha, Bool.or_eq_true, Bool.and_eq_true, decide_eq_true_eq]
  by_cases hc : (97 ≤ c.toNat && c.toNat ≤ 122) = true
  · rw [if_pos hc] at ht
    have hlo : 97 ≤ c.toNat := of_decide_eq_true ((Bool.and_eq_true _ _).mp hc).1
    have hhi : c.toNat ≤ 122 := of_decide_eq_true ((Bool.and_eq_true _ _).mp hc).2
    omega
  · rw [if_neg hc] at ht
    omega

/-- `isDigitCh` is invariant under upper-casing. -/
theorem isDigitCh_upChar (c : Char) : isDigitCh (upChar c) = isDigitCh c := by
  have ht := upChar_toNat c
  rw [Bool.eq_iff_iff]
  simp only [isDigitCh, Bool.and_eq_true, decide_eq_true_eq]
  by_cases hc : (97 ≤ c.toNat && c.toNat ≤ 122) = true
  · rw [if_pos hc] at ht
    have hlo : 97 ≤ c.toNat := of_decide_eq_true ((Bool.and_eq_true _ _).mp hc).1
    have hhi : c.toNat ≤ 122 := of_decide_eq_true ((Bool.and_eq_true _ _).mp hc).2
    omega
  · rw [if_neg hc] at ht
    omega

/-- `isWordCh` is invariant under upper-casing. -/
theorem isWordCh_upChar (c : Char) : isWordCh (upChar c) = isWordCh c := by
  have ht := upChar_toNat c
  have ha := isAsciiAlpha_upChar c
  have hd := isDigitCh_upChar c
  rw [Bool.eq_iff_iff]
  simp only [isWordCh, Bool.or_eq_true, ha, hd, beq_iff_eq]
  by_cases hc : (97 ≤ c.toNat && c.toNat ≤ 122) = true
  · rw [if_pos hc] at ht
    have hlo : 97 ≤ c.toNat := of_decide_eq_true ((Bool.and_eq_true _ _).mp hc).1
    have hhi : c.toNat ≤ 122 := of_decide_eq_true ((Bool.and_eq_true _ _).mp hc).2
    constructor
    · rintro (h | h)
      · exact Or.inl h
      · omega
    · rintro (h | h)
      · exact Or.inl h
      · omega
  · rw [if_neg hc] at ht
    rw [ht]

/-- `pyIsSpaceCh` is invariant under upper-casing. -/
theorem pyIsSpaceCh_upChar (c : Char) : pyIsSpaceCh (upChar c) = pyIsSpaceCh c := by
  have ht := upChar_toNat c
  rw [Bool.eq_iff_iff]
  simp only [pyIsSpaceCh, Bool.or_eq_true, beq_iff_eq]
  by_cases hc : (97 ≤ c.toNat && c.toNat ≤ 122) = true
  · rw [if_pos hc] at ht
    have hlo : 97 ≤ c.toNat := of_decide_eq_true ((Bool.and_eq_true _ _).mp hc).1
    have hhi : c.toNat ≤ 122 := of_decide_eq_true ((Bool.and_eq_true _ _).mp hc).2
    omega
  · rw [if_neg hc] at ht
    omega

/-! ## C9: extractor invariants — tokenizer and string-level lemmas -/

/-- A word boundary is unaffected by upper-casing. -/
theorem boundaryOk_map (l : List Char) :
    boundaryOk (l.map upChar) = boundaryOk l := by
  cases l with
  | nil => rfl
  | cons c t => simp [boundaryOk, isWordCh_upChar]

/-- Tokenization commutes with upper-casing: the scanner finds the same
token positions, with upper-cased content. -/
theorem tokens3Go_map (prevW : Bool) (l : List Char) :
    tokens3Go prevW (l.map upChar) = (tokens3Go prevW l).map (List.map upChar) := by
  induction prevW, l using tokens3Go.induct with
  | case1 prevW => rfl
  | case2 prevW c c2 c3 rest2 hcond ih =>
    simp only [List.map_cons, tokens3Go]
    rw [isAsciiAlpha_upChar, isAsciiAlpha_upChar, isAsciiAlpha_upChar, boundaryOk_map]
    simp only [hcond, if_true, List.map_cons, List.map_nil, ih]
  | case3 prevW c c2 c3 rest2 hcond ih =>
    have hcf : (!prevW && isAsciiAlpha c && isAsciiAlpha c2 && isAsciiAlpha c3 &&
        boundaryOk rest2) = false := by
      rcases hb : (!prevW && isAsciiAlpha c && isAsciiAlpha c2 && isAsciiAlpha c3 &&
        boundaryOk rest2) with _ | _
      · rfl
      · exact absurd hb hcond
    simp only [List.map_cons, tokens3Go]
    rw [isAsciiAlpha_upChar, isAsciiAlpha_upChar, isAsciiAlpha_upChar, boundaryOk_map]
    simp only [hcf, Bool.false_eq_true, if_false, isWordCh_upChar]
    simpa only [List.map_cons] using ih
  | case4 prevW c x hx =>
    cases x with
    | nil => rfl
    | cons c2 x2 =>
      cases x2 with
      | nil => rfl
      | cons c3 x3 => exact absurd rfl (hx c2 c3 x3)

/-- Upper-casing a string twice equals upper-casing it once. -/
theorem pyUpperS_idem (s : String) : pyUpperS (pyUpperS s) = pyUpperS s := by
  simp only [pyUpperS, List.map_map]
  congr 1
  exact List.map_congr_left (fun c _ => upChar_upChar c)

/-- Stripping commutes with upper-casing. -/
theorem stripL_map (l : List Char) :
    stripL (l.map upChar) = (stripL l).map upChar := by
  have h1 : (pyIsSpaceCh ∘ upChar) = pyIsSpaceCh := funext pyIsSpaceCh_upChar
  simp only [stripL, List.dropWhile_map, h1, ← List.map_reverse]

/-- Codes collected by the token filter are upper-casings. -/
theorem mem_hits_upper (table : List AirportRecord) (toks : List String)
    (c : String)
    (h : c ∈ toks.filterMap (fun t =>
      if (iataSet table).contains (pyUpperS t) then some (pyUpperS t) else none)) :
    ∃ t, c = pyUpperS t := by
  rcases List.mem_filterMap.mp h with ⟨t, _, ht⟩
  split at ht
  · cases ht
    exact ⟨t, rfl⟩
  · cases ht

/-- Every detected code is the upper-casing of some string. -/
theorem detect_mem_exists_upper (table : List AirportRecord) (um : String)
    (c : String) (h : c ∈ detect_iata_tokens table um) :
    ∃ t, c = pyUpperS t := by
  simp only [detect_iata_tokens] at h
  split at h
  · split at h
    · have hc : c = pyUpperS (String.mk (stripL um.data)) := by simpa using h
      exact ⟨_, hc⟩
    · exact mem_hits_upper table _ c h
  · exact mem_hits_upper table _ c h

/-- Detection is insensitive to the case of the typed message: the
upper-cased message yields exactly the same code list. -/
theorem detect_upper_eq (table : List AirportRecord) (s : String) :
    detect_iata_tokens table (pyUpperS s) = detect_iata_tokens table s := by
  have hdata : (pyUpperS s).data = s.data.map upChar := rfl
  have key2 : stripL (pyUpperS s).data = (stripL s.data).map upChar := by
    rw [hdata, stripL_map]
  have key4 : (stripL (pyUpperS s).data).length = (stripL s.data).length := by
    rw [key2, List.length_map]
  have key3 : pyUpperS (String.mk (stripL (pyUpperS s).data)) =
      pyUpperS (String.mk (stripL s.data)) := by
    rw [key2]
    show pyUpperS (pyUpperS (String.mk (stripL s.data))) = _
    exact pyUpperS_idem _
  have key1 : ((tokens3Go false (pyUpperS s).data).map String.mk).filterMap
        (fun t => if (iataSet table).contains (pyUpperS t) then some (pyUpperS t)
          else none) =
      ((tokens3Go false s.data).map String.mk).filterMap
        (fun t => if (iataSet table).contains (pyUpperS t) then some (pyUpperS t)
          else none) := by
    rw [hdata, tokens3Go_map, List.map_map, List.filterMap_map, List.filterMap_map]
    apply List.filterMap_congr
    intro l _
    simp only [Function.comp_apply]
    have hl : pyUpperS (String.mk (l.map upChar)) = pyUpperS (String.mk l) := by
      show pyUpperS (pyUpperS (String.mk l)) = _
      exact pyUpperS_idem _
    rw [hl]
  simp only [detect_iata_tokens, key1, key4, key3]

/-- C9.  Every code the extractor returns is upper-cased (it is fixed by
upper-casing) and is a member of the IATA set loaded from the reference
table — hence has a row in the table, so every code handed on to the
airport lookup or the flight gateway exists in the reference data — and
the extractor treats a lower-case and an upper-case typed message
identically. -/
theorem C9_extractor_invariants (table : List AirportRecord) (um : String) :
    (∀ c ∈ detect_iata_tokens table um,
      pyUpperS c = c ∧ c ∈ iataSet table ∧ ∃ r ∈ table, r.iata = some c) ∧
    (∀ s : String, detect_iata_tokens table (pyUpperS s) = detect_iata_tokens table s) := by
  refine ⟨fun c hc => ?_, fun s => detect_upper_eq table s⟩
  have hmem := detect_mem_iataSet table um c hc
  obtain ⟨t, rfl⟩ := detect_mem_exists_upper table um c hc
  exact ⟨pyUpperS_idem t, hmem, row_of_mem_iataSet table _ hmem⟩

/-- C9 (witness): over the fixture table, the lower-case-typed message
`"fly to lax now"` yields the code `"LAX"` — upper-cased, in the IATA
set, with its table row — and upper-casing the whole message leaves the
extraction unchanged. -/
theorem C9_extractor_witness :
    (pyUpperS "LAX" = "LAX" ∧ "LAX" ∈ iataSet table0 ∧
      ∃ r ∈ table0, r.iata = some "LAX") ∧
    detect_iata_tokens table0 (pyUpperS "fly to lax now") =
      detect_iata_tokens table0 "fly to lax now" :=
  ⟨(C9_extractor_invariants table0 "fly to lax now").1 "LAX" (by decide),
   (C9_extractor_invariants table0 "x").2 "fly to lax now"⟩

end AirlineBot
